import Mathlib

/-!
Shallow embedding of the zeke.nvim core (Rust) for specification checking.

Sources embedded:
- src/providers/ghostllm.rs   (GhostLLM provider, consent retry flow)
- src/providers/copilot.rs    (Copilot provider, chat_stream)
- src/providers/mod.rs        (ProviderManager: switch_provider, set_model,
                               get_current_model, new_with_config)
- src/discovery.rs            (ZekeDiscovery: discover_sessions,
                               find_active_session, is_session_active,
                               check_websocket_health, stop_session)
- src/websocket.rs            (WebSocketClient inbound dispatch, StreamMessage)
- src/terminal.rs             (TaskManager: create_task)

Network and filesystem effects are modelled by explicit oracles (functions
passed as parameters) that give the outcome of each external interaction;
the control flow around those outcomes is translated directly from the
Rust source. JSON (de)serialization performed by the serde library is
abstracted as the parse result it produces.
-/

/-! Section 1: GhostLLM provider, src/providers/ghostllm.rs.

The provider issues an HTTP POST per attempt; the backend outcome of the
k-th attempt of one original call is given by an oracle. The four cases
mirror the branches of GhostLLMProvider::make_request:
status 200 (parsed response), status 403 with error_type consent_required,
status 403 with another error_type, and any other status. -/

inductive GhostResp where
  | ok (content : String)
  | consentRequired (consent_id : String) (message : String)
  | otherError (message : String)
  | apiError (text : String)
deriving DecidableEq, Repr

/-- Result of one GhostLLM call: Ok content or an error string (anyhow). -/
abbrev GhostResult := Except String String

/-- Translation of GhostLLMProvider::make_request (ghostllm.rs lines 82-116).
On a 200 it returns the content; on a 403 with error_type consent_required
it calls approve_consent (decision allow_session, outcome given by the
approveOk oracle per consent id) and then recursively retries the same
request; on any other 403 or status it returns an error. The Rust function
has no recursion bound, so the model carries explicit fuel: a result of
none means the call has not returned within the given number of attempts
(divergence when it holds for every fuel). -/
def make_request (backend : Nat → GhostResp) (approveOk : String → Bool) :
    Nat → Nat → Option GhostResult
  | _, 0 => none
  | k, fuel + 1 =>
    match backend k with
    | .ok content => some (.ok content)
    | .consentRequired cid _msg =>
        if approveOk cid then
          make_request backend approveOk (k + 1) fuel
        else
          some (.error "Failed to approve consent")
    | .otherError msg => some (.error ("GhostLLM error: " ++ msg))
    | .apiError text => some (.error ("GhostLLM API error: " ++ text))

/-- Backend that answers every attempt with a consent_required 403. -/
def ghostAlwaysConsent : Nat → GhostResp :=
  fun _ => .consentRequired "c1" "consent required"

/-- Backend that answers the first two attempts with consent_required and
the third with a 200 response. -/
def ghostTwoConsentsThenOk : Nat → GhostResp :=
  fun k => if k < 2 then .consentRequired "c1" "consent required" else .ok "done"

/-! Section 2: Copilot provider, src/providers/copilot.rs. -/

/-- State of CopilotProvider (copilot.rs lines 30-36); the f32 temperature
field is omitted (floating point, unused by every embedded operation). -/
structure CopilotProvider where
  github_token : String
  model : String
  max_tokens : Nat
deriving DecidableEq, Repr

/-- A chat stream value: the finite sequence of fragment results a caller
would drain from the returned stream object. -/
abbrev ChatStream := List (Except String String)

/-- Translation of CopilotProvider::chat_stream (copilot.rs lines 160-162):
it returns Err synchronously and never constructs a stream. -/
def CopilotProvider.chat_stream (_p : CopilotProvider) (_message : String) :
    Except String ChatStream :=
  .error "Streaming not supported for Copilot provider"

/-! Section 3: ProviderManager, src/providers/mod.rs. -/

inductive ProviderType where
  | OpenAI
  | Claude
  | Ollama
  | Copilot
  | GhostLLM
deriving DecidableEq, Repr

/-- A live provider instance as built by new_with_config; each variant
carries the construction data the corresponding Rust constructor stores.
The concrete constructors in src/providers/ are infallible. -/
inductive ProviderInstance where
  | ghostllm (base_url : String) (session_token : Option String)
  | openai (api_key : String)
  | claude (api_key : String)
  | ollama (base_url : String)
  | copilot (token : String)
deriving DecidableEq, Repr

structure ProviderManager where
  current_provider : ProviderInstance
  provider_type : ProviderType
  ghostllm_enabled : Bool
  ghostllm_base_url : String
deriving DecidableEq, Repr

/-- The api_keys HashMap argument, as a lookup function. -/
abbrev KeyMap := String → Option String

/-- Translation of ProviderManager::new (mod.rs lines 50-61). -/
def ProviderManager.new : ProviderManager :=
  { current_provider := .ghostllm "http://localhost:8080" none
    provider_type := .GhostLLM
    ghostllm_enabled := true
    ghostllm_base_url := "http://localhost:8080" }

/-- Translation of ProviderManager::new_with_config (mod.rs lines 63-114):
credential lookup failures are the only error paths. -/
def new_with_config (provider_type : ProviderType) (api_keys : KeyMap)
    (ghostllm_config : Option (String × Option String)) :
    Except String ProviderManager :=
  match provider_type with
  | .GhostLLM =>
      let inst : ProviderInstance :=
        match ghostllm_config with
        | some (base_url, session_token) => .ghostllm base_url session_token
        | none => .ghostllm "http://localhost:8080" none
      .ok { current_provider := inst
            provider_type := .GhostLLM
            ghostllm_enabled := true
            ghostllm_base_url :=
              match ghostllm_config with
              | some (url, _) => url
              | none => "http://localhost:8080" }
  | .OpenAI =>
      match api_keys "openai" with
      | none => .error "OpenAI API key not found"
      | some api_key =>
          .ok { current_provider := .openai api_key
                provider_type := .OpenAI
                ghostllm_enabled := false
                ghostllm_base_url :=
                  match ghostllm_config with
                  | some (url, _) => url
                  | none => "http://localhost:8080" }
  | .Claude =>
      match api_keys "claude" with
      | none => .error "Claude API key not found"
      | some api_key =>
          .ok { current_provider := .claude api_key
                provider_type := .Claude
                ghostllm_enabled := false
                ghostllm_base_url :=
                  match ghostllm_config with
                  | some (url, _) => url
                  | none => "http://localhost:8080" }
  | .Ollama =>
      let base_url := (api_keys "ollama_base_url").getD "http://localhost:11434"
      .ok { current_provider := .ollama base_url
            provider_type := .Ollama
            ghostllm_enabled := false
            ghostllm_base_url :=
              match ghostllm_config with
              | some (url, _) => url
              | none => "http://localhost:8080" }
  | .Copilot =>
      match api_keys "copilot" with
      | none => .error "GitHub token not found"
      | some token =>
          .ok { current_provider := .copilot token
                provider_type := .Copilot
                ghostllm_enabled := false
                ghostllm_base_url :=
                  match ghostllm_config with
                  | some (url, _) => url
                  | none => "http://localhost:8080" }

/-- Translation of ProviderManager::switch_provider (mod.rs lines 129-139):
build a fresh manager from the requested type and keys; on error propagate
it leaving self untouched; on success move only current_provider and
provider_type into self. The second component is the returned error. -/
def switch_provider (m : ProviderManager) (provider_type : ProviderType)
    (api_keys : KeyMap) : ProviderManager × Option String :=
  match new_with_config provider_type api_keys (some (m.ghostllm_base_url, none)) with
  | .error e => (m, some e)
  | .ok nm =>
      ({ m with
          current_provider := nm.current_provider
          provider_type := nm.provider_type }, none)

/-- Translation of ProviderManager::set_model (mod.rs lines 174-178): the
model argument is ignored and Ok is returned with no state change. -/
def set_model (m : ProviderManager) (_model : String) :
    ProviderManager × Except String Unit :=
  (m, .ok ())

/-- Translation of ProviderManager::get_current_model (mod.rs lines 180-188). -/
def get_current_model (m : ProviderManager) : String :=
  match m.provider_type with
  | .GhostLLM => "auto (GhostLLM)"
  | .OpenAI => "gpt-4"
  | .Claude => "claude-3-sonnet"
  | .Ollama => "llama3:8b"
  | .Copilot => "copilot"

/-! Section 4: ZekeDiscovery, src/discovery.rs.

Filesystem and OS effects are modelled explicitly: the session directory
is an optional list of directory entries (none when the directory does not
exist); the OS process query is an oracle on pids; the WebSocket health
probe is an oracle giving, per port, the time at which the connection
attempt resolves and whether it succeeds. -/

/-- Translation of ZekeSessionInfo (discovery.rs lines 8-16). -/
structure ZekeSessionInfo where
  port : Nat
  auth_token : String
  session_id : String
  pid : Nat
  start_time : Nat
  version : String
deriving DecidableEq, Repr

/-- One entry of the session directory: its file name and the result of
parsing its text with serde_json (none when parsing fails). -/
structure DirEntry where
  name : String
  content : Option ZekeSessionInfo
deriving DecidableEq, Repr

/-- The session directory: none models a non-existent directory. -/
abbrev SessionDir := Option (List DirEntry)

/-- Rust str::ends_with: a byte-level suffix test, which on UTF8 strings
coincides with a suffix test on the character sequence. -/
def ends_with (s suffix : String) : Bool :=
  suffix.data.isSuffixOf s.data

/-- Timeout, in time units (seconds), of the WebSocket health probe
(discovery.rs line 168: Duration::from_secs 2). -/
def websocketHealthTimeout : Nat := 2

/-- Outcome oracle of a connection attempt per port: the time at which the
attempt resolves and whether it resolves to a successful connection. -/
abbrev ProbeOracle := Nat → Nat × Bool

/-- Oracle for the OS-level process query per pid (discovery.rs
is_process_running, lines 140-162): whether the kill -0 probe reports the
process as running. -/
abbrev PidOracle := Nat → Bool

/-- Translation of ZekeDiscovery::check_websocket_health (discovery.rs
lines 164-174): true exactly when the connection attempt resolves
successfully within the 2 time unit timeout. -/
def check_websocket_health (probe : ProbeOracle) (port : Nat) : Bool :=
  let r := probe port
  if r.1 ≤ websocketHealthTimeout then r.2 else false

/-- Translation of ZekeDiscovery::is_session_active (discovery.rs lines
130-138): the process check runs first and short-circuits; only when it
passes is the WebSocket health probe consulted. -/
def is_session_active (procRunning : PidOracle) (probe : ProbeOracle)
    (session : ZekeSessionInfo) : Bool :=
  if ¬ procRunning session.pid then false
  else check_websocket_health probe session.port

/-- Translation of the directory loop of ZekeDiscovery::discover_sessions
(discovery.rs lines 46-60): for each entry whose name ends in .lock and
whose text parses, an active session is collected and a stale one has its
lock file removed; entries that do not parse, and entries that are not
lock files, are left in place and not collected. Returns the directory
after the loop and the collected sessions in directory order. -/
def discoverLoop (procRunning : PidOracle) (probe : ProbeOracle) :
    List DirEntry → List DirEntry × List ZekeSessionInfo
  | [] => ([], [])
  | e :: rest =>
    let r := discoverLoop procRunning probe rest
    if ends_with e.name ".lock" then
      match e.content with
      | some s =>
          if is_session_active procRunning probe s then
            (e :: r.1, s :: r.2)
          else
            (r.1, r.2)
      | none => (e :: r.1, r.2)
    else (e :: r.1, r.2)

/-- Comparator of discovery.rs line 63: sessions.sort_by b.start_time.cmp
a.start_time, a stable descending sort on start_time. -/
def newestFirst (a b : ZekeSessionInfo) : Bool :=
  b.start_time ≤ a.start_time

/-- Translation of ZekeDiscovery::discover_sessions (discovery.rs lines
38-65): empty result when the directory does not exist; otherwise run the
loop and return the surviving directory plus the collected sessions sorted
newest first (Rust sort_by is stable, as is mergeSort). -/
def discover_sessions (procRunning : PidOracle) (probe : ProbeOracle) :
    SessionDir → SessionDir × List ZekeSessionInfo
  | none => (none, [])
  | some entries =>
    let r := discoverLoop procRunning probe entries
    (some r.1, r.2.mergeSort newestFirst)

/-- Translation of ZekeDiscovery::find_active_session (discovery.rs lines
68-71): the first element of the discover_sessions result. -/
def find_active_session (procRunning : PidOracle) (probe : ProbeOracle)
    (dir : SessionDir) : Option ZekeSessionInfo :=
  (discover_sessions procRunning probe dir).2.head?

/-- External outcomes that determine one run of stop_session:
whether the graceful shutdown send succeeds, whether the forced kill
command succeeds, whether the lock file exists, and whether removing it
succeeds. -/
structure StopWorld where
  graceful_ok : Bool
  force_ok : Bool
  lock_exists : Bool
  remove_ok : Bool
deriving DecidableEq, Repr

/-- Observable actions stop_session may perform, in order. -/
inductive StopAction where
  | graceful
  | forceKill
  | removeLock
deriving DecidableEq, Repr

/-- Translation of ZekeDiscovery::stop_session (discovery.rs lines
177-191): try send_shutdown_signal first; only when it fails run
force_kill_session, whose failure propagates; then remove the lock file
only when it exists, so a missing lock file is not an error. Returns the
ordered list of attempted actions and the Result. -/
def stop_session (w : StopWorld) : List StopAction × Except String Unit :=
  if w.graceful_ok then
    if w.lock_exists then
      if w.remove_ok then ([.graceful, .removeLock], .ok ())
      else ([.graceful, .removeLock], .error "remove_file failed")
    else ([.graceful], .ok ())
  else
    if w.force_ok then
      if w.lock_exists then
        if w.remove_ok then ([.graceful, .forceKill, .removeLock], .ok ())
        else ([.graceful, .forceKill, .removeLock], .error "remove_file failed")
      else ([.graceful, .forceKill], .ok ())
    else ([.graceful, .forceKill], .error "force kill failed")

/-! Section 5: WebSocketClient inbound dispatch, src/websocket.rs. -/

/-- Translation of FileChange (websocket.rs lines 54-59). -/
structure FileChange where
  file_path : String
  content : String
  change_type : String
deriving DecidableEq, Repr

/-- Translation of ActionRequest (websocket.rs lines 45-52). -/
structure ActionRequestData where
  id : String
  action_type : String
  description : String
  file_path : Option String
  changes : Option (List FileChange)
deriving DecidableEq, Repr

/-- Translation of StreamMessage (websocket.rs lines 32-43), the tagged
union decoded from text frames. -/
inductive StreamMessage where
  | ChatDelta (content : String)
  | Error (message : String)
  | StreamStart (session_id : String)
  | StreamEnd (reason : String)
  | Ping
  | Pong
  | ActionRequest (action : ActionRequestData)
  | ActionResponse (approved : Bool) (session : Bool)
deriving DecidableEq, Repr

/-- A transport frame as seen by the inbound dispatch task. A text frame
carries the result of the serde_json parse of its payload into
StreamMessage (none when parsing fails); ping and pong frames carry their
payload bytes. -/
inductive WsFrame where
  | text (parsed : Option StreamMessage)
  | ping (payload : List Nat)
  | pong (payload : List Nat)
  | binary (payload : List Nat)
  | close
deriving DecidableEq, Repr

/-- Effect of dispatching one inbound frame: the message broadcast to every
registered handler (if any), the frame sent back on the outbound channel
(if any), and whether the receive loop stops. -/
structure DispatchResult where
  broadcast : Option StreamMessage
  reply : Option WsFrame
  stops : Bool
deriving DecidableEq, Repr

/-- Translation of the receiver task match of WebSocketClient::connect
(websocket.rs lines 112-139): a text frame that parses is broadcast to all
handlers (whatever its variant); a transport ping frame is answered with a
pong carrying the same payload and is not broadcast; close stops the loop;
everything else is ignored. -/
def dispatchFrame : WsFrame → DispatchResult
  | .text parsed =>
    match parsed with
    | some msg => { broadcast := some msg, reply := none, stops := false }
    | none => { broadcast := none, reply := none, stops := false }
  | .ping payload => { broadcast := none, reply := some (.pong payload), stops := false }
  | .pong _ => { broadcast := none, reply := none, stops := false }
  | .binary _ => { broadcast := none, reply := none, stops := false }
  | .close => { broadcast := none, reply := none, stops := true }

/-! Section 6: TaskManager, src/terminal.rs. -/

namespace Terminal

/-- Translation of TaskStatus (terminal.rs lines 15-22). -/
inductive TaskStatus where
  | Pending
  | Running
  | Completed
  | Failed
  | Cancelled
deriving DecidableEq, Repr

/-- Translation of Task (terminal.rs lines 6-13). -/
structure Task where
  id : Nat
  command : String
  status : TaskStatus
  output : String
  error : Option String
deriving DecidableEq, Repr

/-- Translation of TaskManager (terminal.rs lines 24-28): the HashMap of
tasks is modelled as its association list (insertion at the front). -/
structure TaskManager where
  tasks : List (Nat × Task)
  next_id : Nat
deriving DecidableEq, Repr

/-- Translation of TaskManager::new (terminal.rs lines 31-36). -/
def TaskManager.new : TaskManager :=
  { tasks := [], next_id := 1 }

/-- Translation of TaskManager::create_task (terminal.rs lines 38-55):
take the current next_id as the new id, increment next_id, insert a
Pending task under that id, return the id. -/
def create_task (m : TaskManager) (command : String) : Nat × TaskManager :=
  let id := m.next_id
  let task : Task :=
    { id := id, command := command, status := .Pending, output := "", error := none }
  (id, { tasks := (id, task) :: m.tasks, next_id := id + 1 })

/-- Sequence of create_task calls on one manager, returning the ids in
call order and the final manager. -/
def runCreates (m : TaskManager) : List String → List Nat × TaskManager
  | [] => ([], m)
  | c :: cs =>
    let r := create_task m c
    let rest := runCreates r.2 cs
    (r.1 :: rest.1, rest.2)

end Terminal

/-! Section 7: auxiliary definitions used by the verification. -/

/-- Whether discover_sessions keeps a directory entry: lock files whose
content parses to a stale session are the only entries removed. -/
def keepEntry (procRunning : PidOracle) (probe : ProbeOracle) (e : DirEntry) : Bool :=
  if ends_with e.name ".lock" then
    match e.content with
    | some s => is_session_active procRunning probe s
    | none => true
  else true

/-- The session discover_sessions collects from a directory entry, if any:
lock files whose content parses to an active session. -/
def collectEntry (procRunning : PidOracle) (probe : ProbeOracle) (e : DirEntry) :
    Option ZekeSessionInfo :=
  if ends_with e.name ".lock" then
    match e.content with
    | some s => if is_session_active procRunning probe s then some s else none
    | none => none
  else none

/-- A verified session descriptor with session id a. -/
def sessA : ZekeSessionInfo :=
  { port := 8081, auth_token := "t", session_id := "a", pid := 1,
    start_time := 100, version := "0.1.0" }

/-- A session descriptor with session id b and the same start_time as
sessA. -/
def sessB : ZekeSessionInfo :=
  { port := 8082, auth_token := "t", session_id := "b", pid := 2,
    start_time := 100, version := "0.1.0" }

/-- Lock file entry of sessA. -/
def entryA : DirEntry := { name := "a.lock", content := some sessA }

/-- Lock file entry of sessB. -/
def entryB : DirEntry := { name := "b.lock", content := some sessB }

/-- OS oracle under which every recorded process is running. -/
def allPids : PidOracle := fun _ => true

/-- Probe oracle under which every port answers immediately and
successfully. -/
def allPorts : ProbeOracle := fun _ => (0, true)

/-- Probe oracle under which port 8082 only answers after 5 time units
(exceeding the 2 time unit probe timeout) and every other port answers
immediately. -/
def slowPortB : ProbeOracle := fun port => if port = 8082 then (5, true) else (0, true)

/-- A second GhostLLM-typed manager differing from ProviderManager.new in
every field except provider_type. -/
def mgrAlt : ProviderManager :=
  { current_provider := .ghostllm "http://example.test:9999" (some "tok")
    provider_type := .GhostLLM
    ghostllm_enabled := false
    ghostllm_base_url := "http://example.test:9999" }

/-! Section 8: claim theorems. -/

/-- C1: the claim says a consent-required response is retried at most once
per original call, a second consent requirement surfacing ConsentDenied.
The code (make_request) instead retries after every consent-required
response with an automatic allow_session approval: two consecutive
consent-required responses lead to a second retry that can succeed, and a
backend answering consent_required forever makes the call diverge for
every fuel bound, never returning ConsentDenied or any other error. -/
theorem C1_consent_retry_unbounded :
    (∀ fuel k, make_request ghostAlwaysConsent (fun _ => true) k fuel = none)
    ∧ make_request ghostTwoConsentsThenOk (fun _ => true) 0 3 =
        some (.ok "done") := by
  constructor
  · intro fuel
    induction fuel with
    | zero => intro k; rfl
    | succ n ih => intro k; simpa [make_request, ghostAlwaysConsent] using ih (k + 1)
  · rfl

/-- C4: a provider switch whose credential validation fails returns the
error and leaves the manager, hence get_current_model, unchanged. -/
theorem C4_switch_provider_atomic (m : ProviderManager) (pt : ProviderType)
    (keys : KeyMap) (e : String)
    (h : new_with_config pt keys (some (m.ghostllm_base_url, none)) = .error e) :
    switch_provider m pt keys = (m, some e)
    ∧ get_current_model (switch_provider m pt keys).1 = get_current_model m := by
  have h1 : switch_provider m pt keys = (m, some e) := by
    unfold switch_provider
    rw [h]
  exact ⟨h1, by rw [h1]⟩

/-- Witness for C4: switching the default manager to OpenAI with an empty
key map fails the credential lookup and changes nothing. -/
theorem C4_switch_provider_atomic_witness :
    new_with_config .OpenAI (fun _ => none)
        (some (ProviderManager.new.ghostllm_base_url, none)) =
      .error "OpenAI API key not found"
    ∧ switch_provider ProviderManager.new .OpenAI (fun _ => none) =
        (ProviderManager.new, some "OpenAI API key not found")
    ∧ get_current_model (switch_provider ProviderManager.new .OpenAI (fun _ => none)).1 =
        get_current_model ProviderManager.new :=
  ⟨rfl,
   (C4_switch_provider_atomic ProviderManager.new .OpenAI (fun _ => none)
      "OpenAI API key not found" rfl).1,
   (C4_switch_provider_atomic ProviderManager.new .OpenAI (fun _ => none)
      "OpenAI API key not found" rfl).2⟩

/-- C5: chat_stream on the Copilot provider fails synchronously with the
unsupported-streaming error and never returns a stream object. -/
theorem C5_copilot_stream_unsupported (p : CopilotProvider) (message : String) :
    CopilotProvider.chat_stream p message =
      .error "Streaming not supported for Copilot provider"
    ∧ ∀ s : ChatStream, CopilotProvider.chat_stream p message ≠ .ok s :=
  ⟨rfl, fun _ h => by simp [CopilotProvider.chat_stream] at h⟩

/-- C6: stop_session attempts the graceful protocol shutdown first, falls
back to forced termination exactly when the graceful attempt fails, only
touches the lock file when it exists, and succeeds when the lock file is
missing (idempotent removal), provided the shutdown tier taken succeeds. -/
theorem C6_stop_session_two_tier (w : StopWorld)
    (h : w.graceful_ok = true ∨ w.force_ok = true) :
    (stop_session w).1.head? = some .graceful
    ∧ (StopAction.forceKill ∈ (stop_session w).1 ↔ w.graceful_ok = false)
    ∧ (StopAction.removeLock ∈ (stop_session w).1 ↔ w.lock_exists = true)
    ∧ (w.lock_exists = false → (stop_session w).2 = .ok ()) := by
  obtain ⟨g, f, l, r⟩ := w
  cases g <;> cases f <;> cases l <;> cases r <;> simp_all [stop_session]

/-- Witness for C6 at a concrete world where the graceful attempt succeeds
and the lock file is absent. -/
theorem C6_stop_session_two_tier_witness :
    ((StopWorld.mk true true false true).graceful_ok = true
      ∨ (StopWorld.mk true true false true).force_ok = true)
    ∧ ((stop_session (StopWorld.mk true true false true)).1.head? = some .graceful
    ∧ (StopAction.forceKill ∈ (stop_session (StopWorld.mk true true false true)).1
        ↔ (StopWorld.mk true true false true).graceful_ok = false)
    ∧ (StopAction.removeLock ∈ (stop_session (StopWorld.mk true true false true)).1
        ↔ (StopWorld.mk true true false true).lock_exists = true)
    ∧ ((StopWorld.mk true true false true).lock_exists = false →
        (stop_session (StopWorld.mk true true false true)).2 = .ok ())) :=
  ⟨Or.inl rfl, C6_stop_session_two_tier (StopWorld.mk true true false true) (Or.inl rfl)⟩

/-- C7: a session passes liveness verification exactly when the OS-level
process query reports the recorded pid as running and the protocol probe
on the recorded port resolves successfully within the 2 time unit timeout;
either check failing alone makes the verification fail. -/
theorem C7_liveness_two_checks (procRunning : PidOracle) (probe : ProbeOracle)
    (s : ZekeSessionInfo) :
    is_session_active procRunning probe s = true ↔
      (procRunning s.pid = true
        ∧ (probe s.port).1 ≤ websocketHealthTimeout
        ∧ (probe s.port).2 = true) := by
  unfold is_session_active check_websocket_health
  cases hp : procRunning s.pid <;>
    rcases hq : probe s.port with ⟨t, b⟩ <;>
      by_cases ht : t ≤ websocketHealthTimeout <;>
        simp [hp, hq, ht]

/-- C8 counterexample: a text frame carrying the tagged-union Ping event
is broadcast to the registered handlers and no Pong is sent in reply,
contradicting the claim that every received Ping, including the Ping event
message, is answered automatically without handler delivery. -/
theorem C8_ping_event_counterexample :
    (dispatchFrame (.text (some .Ping))).reply = none
    ∧ (dispatchFrame (.text (some .Ping))).broadcast = some .Ping :=
  ⟨rfl, rfl⟩

/-- C8 amended: only transport-level Ping frames are answered with a Pong
automatically and kept away from handlers; a Ping event message of the
tagged union is broadcast to the handlers like any other parsed event and
no Pong is produced for it. -/
theorem C8_ping_amended (payload : List Nat) :
    dispatchFrame (.ping payload) =
      { broadcast := none, reply := some (.pong payload), stops := false }
    ∧ dispatchFrame (.text (some .Ping)) =
      { broadcast := some .Ping, reply := none, stops := false } :=
  ⟨rfl, rfl⟩

/-- C10: set_model on the provider gateway returns Ok, leaves the manager
unchanged, and get_current_model is a function of the provider type alone. -/
theorem C10_set_model_frame (m m2 : ProviderManager) (model : String) :
    set_model m model = (m, .ok ())
    ∧ (m.provider_type = m2.provider_type →
        get_current_model m = get_current_model m2) := by
  refine ⟨rfl, fun h => ?_⟩
  unfold get_current_model
  rw [h]

/-- Witness for C10: the default manager and a GhostLLM manager differing
in every other field report the same current model, and set_model on the
default manager is an Ok no-op. -/
theorem C10_set_model_frame_witness :
    set_model ProviderManager.new "gpt-4" = (ProviderManager.new, .ok ())
    ∧ ProviderManager.new.provider_type = mgrAlt.provider_type
    ∧ get_current_model ProviderManager.new = get_current_model mgrAlt :=
  ⟨(C10_set_model_frame ProviderManager.new mgrAlt "gpt-4").1, rfl,
   (C10_set_model_frame ProviderManager.new mgrAlt "gpt-4").2 rfl⟩

/-- The directory surviving the discovery loop is exactly the filter by
keepEntry. -/
theorem discoverLoop_fst (p : PidOracle) (q : ProbeOracle) (es : List DirEntry) :
    (discoverLoop p q es).1 = es.filter (keepEntry p q) := by
  induction es with
  | nil => rfl
  | cons e rest ih =>
    unfold discoverLoop
    cases hl : ends_with e.name ".lock" <;>
      cases hc : e.content <;>
        simp [List.filter_cons, keepEntry, hl, hc, ih]
    rename_i s
    cases ha : is_session_active p q s <;> simp [ha, ih]

/-- The sessions collected by the discovery loop are exactly the
filterMap by collectEntry, in directory order. -/
theorem discoverLoop_snd (p : PidOracle) (q : ProbeOracle) (es : List DirEntry) :
    (discoverLoop p q es).2 = es.filterMap (collectEntry p q) := by
  induction es with
  | nil => rfl
  | cons e rest ih =>
    unfold discoverLoop
    cases hl : ends_with e.name ".lock" <;>
      cases hc : e.content <;>
        simp [List.filterMap_cons, collectEntry, hl, hc, ih]
    rename_i s
    cases ha : is_session_active p q s <;> simp [ha, ih]

/-- A collected session passed the liveness verification. -/
theorem collectEntry_active {p : PidOracle} {q : ProbeOracle} {e : DirEntry}
    {s : ZekeSessionInfo} (h : collectEntry p q e = some s) :
    is_session_active p q s = true := by
  rcases e with ⟨name, content⟩
  cases hl : ends_with name ".lock" <;> simp [collectEntry, hl] at h
  cases content with
  | none => simp at h
  | some t =>
    cases ha : is_session_active p q t <;> simp [ha] at h
    subst h
    exact ha

/-- An entry the loop removes collects no session. -/
theorem collectEntry_none_of_keep {p : PidOracle} {q : ProbeOracle} {e : DirEntry}
    (h : keepEntry p q e = false) : collectEntry p q e = none := by
  rcases e with ⟨name, content⟩
  cases hl : ends_with name ".lock" <;> simp [keepEntry, hl] at h
  cases content with
  | none => simp at h
  | some t =>
    have ht : is_session_active p q t = false := h
    simp [collectEntry, hl, ht]

/-- Directory component of discover_sessions on an existing directory. -/
theorem discover_fst (p : PidOracle) (q : ProbeOracle) (d : List DirEntry) :
    (discover_sessions p q (some d)).1 = some (d.filter (keepEntry p q)) := by
  simp [discover_sessions, discoverLoop_fst]

/-- Session component of discover_sessions on an existing directory. -/
theorem discover_snd (p : PidOracle) (q : ProbeOracle) (d : List DirEntry) :
    (discover_sessions p q (some d)).2 =
      (d.filterMap (collectEntry p q)).mergeSort newestFirst := by
  simp [discover_sessions, discoverLoop_snd]

/-- Every session returned by discover_sessions passed liveness
verification. -/
theorem active_of_mem_discover {p : PidOracle} {q : ProbeOracle} {dir : SessionDir}
    {s : ZekeSessionInfo} (h : s ∈ (discover_sessions p q dir).2) :
    is_session_active p q s = true := by
  cases dir with
  | none => simp [discover_sessions] at h
  | some d =>
    rw [discover_snd, List.mem_mergeSort] at h
    obtain ⟨a, -, ha⟩ := List.mem_filterMap.mp h
    exact collectEntry_active ha

/-- C2: every parsed lock record whose session fails liveness verification
is removed from the directory by discover_sessions and its session is not
returned; every returned session passed verification; and a second
discovery over the resulting directory returns the same directory and the
same session sequence (the invariant over repeated discovery calls). -/
theorem C2_discovery_purges_stale (p : PidOracle) (q : ProbeOracle) (dir : SessionDir) :
    (∀ d e s, dir = some d → e ∈ d → ends_with e.name ".lock" = true →
        e.content = some s → is_session_active p q s = false →
        (∀ d2, (discover_sessions p q dir).1 = some d2 → e ∉ d2)
        ∧ s ∉ (discover_sessions p q dir).2)
    ∧ (∀ s ∈ (discover_sessions p q dir).2, is_session_active p q s = true)
    ∧ discover_sessions p q (discover_sessions p q dir).1 = discover_sessions p q dir := by
  refine ⟨?_, fun s hs => active_of_mem_discover hs, ?_⟩
  · intro d e s hdir he hlock hcontent hstale
    subst hdir
    have hkeep : keepEntry p q e = false := by
      simp [keepEntry, hlock, hcontent, hstale]
    constructor
    · intro d2 hd2 hmem
      rw [discover_fst] at hd2
      cases hd2
      have := (List.mem_filter.mp hmem).2
      rw [hkeep] at this
      exact Bool.false_ne_true this
    · intro hmem
      have := active_of_mem_discover hmem
      rw [hstale] at this
      exact Bool.false_ne_true this
  · cases dir with
    | none => rfl
    | some d =>
      have hfun : (fun a => if keepEntry p q a then collectEntry p q a else none) =
          collectEntry p q := by
        funext a
        cases hk : keepEntry p q a
        · simp [collectEntry_none_of_keep hk]
        · simp
      rw [discover_fst]
      have h1 : (d.filter (keepEntry p q)).filter (keepEntry p q) =
          d.filter (keepEntry p q) := by
        rw [List.filter_filter]
        simp
      have h2 : (d.filter (keepEntry p q)).filterMap (collectEntry p q) =
          d.filterMap (collectEntry p q) := by
        rw [List.filterMap_filter, hfun]
      have hL : discover_sessions p q (some (d.filter (keepEntry p q))) =
          (some ((d.filter (keepEntry p q)).filter (keepEntry p q)),
            ((d.filter (keepEntry p q)).filterMap (collectEntry p q)).mergeSort newestFirst) := by
        simp [discover_sessions, discoverLoop_fst, discoverLoop_snd]
      have hR : discover_sessions p q (some d) =
          (some (d.filter (keepEntry p q)),
            (d.filterMap (collectEntry p q)).mergeSort newestFirst) := by
        simp [discover_sessions, discoverLoop_fst, discoverLoop_snd]
      rw [hL, hR, h1, h2]

/-- Witness for C2: with the probe of port 8082 exceeding the timeout, the
stale lock entry of sessB is removed from the directory and sessB is not
returned. -/
theorem C2_discovery_purges_stale_witness :
    (entryB ∈ [entryA, entryB]
      ∧ ends_with entryB.name ".lock" = true
      ∧ entryB.content = some sessB
      ∧ is_session_active allPids slowPortB sessB = false)
    ∧ (discover_sessions allPids slowPortB (some [entryA, entryB])).1 = some [entryA]
    ∧ entryB ∉ [entryA]
    ∧ sessB ∉ (discover_sessions allPids slowPortB (some [entryA, entryB])).2 := by
  have H := (C2_discovery_purges_stale allPids slowPortB (some [entryA, entryB])).1
    [entryA, entryB] entryB sessB rfl (by simp) (by decide) rfl (by decide)
  refine ⟨⟨by simp, by decide, rfl, by decide⟩, by decide, ?_, H.2⟩
  exact H.1 [entryA] (by decide)

/-- The comparator newestFirst is transitive. -/
theorem newestFirst_trans (a b c : ZekeSessionInfo) :
    newestFirst a b → newestFirst b c → newestFirst a c := by
  simp [newestFirst]
  omega

/-- The comparator newestFirst is total. -/
theorem newestFirst_total (a b : ZekeSessionInfo) :
    newestFirst a b || newestFirst b a := by
  simp [newestFirst]
  omega

/-- Concrete discovery with entryA enumerated first: sessA is returned. -/
theorem findAB :
    find_active_session allPids allPorts (some [entryA, entryB]) = some sessA := by
  show ((discoverLoop allPids allPorts [entryA, entryB]).2.mergeSort newestFirst).head?
      = some sessA
  have hloop : (discoverLoop allPids allPorts [entryA, entryB]).2 = [sessA, sessB] := by
    decide
  rw [hloop, List.mergeSort_of_sorted (by decide)]
  rfl

/-- Concrete discovery with entryB enumerated first: sessB is returned. -/
theorem findBA :
    find_active_session allPids allPorts (some [entryB, entryA]) = some sessB := by
  show ((discoverLoop allPids allPorts [entryB, entryA]).2.mergeSort newestFirst).head?
      = some sessB
  have hloop : (discoverLoop allPids allPorts [entryB, entryA]).2 = [sessB, sessA] := by
    decide
  rw [hloop, List.mergeSort_of_sorted (by decide)]
  rfl

/-- C3 counterexample: two verified descriptors with equal start_time are
returned according to directory enumeration order, not by lexicographic
session_id; the same set of descriptors gives different results under the
two enumeration orders, so the choice is not determined by the set and in
the second order the lexicographically larger session_id wins. -/
theorem C3_tie_break_counterexample :
    find_active_session allPids allPorts (some [entryA, entryB]) = some sessA
    ∧ find_active_session allPids allPorts (some [entryB, entryA]) = some sessB
    ∧ sessA.start_time = sessB.start_time
    ∧ sessA ≠ sessB
    ∧ sessA.session_id = "a"
    ∧ sessB.session_id = "b"
    ∧ is_session_active allPids allPorts sessA = true
    ∧ is_session_active allPids allPorts sessB = true :=
  ⟨findAB, findBA, rfl, by decide, rfl, rfl, by decide, by decide⟩

/-- C3 amended: find_active_session returns a verified session whose
start_time is maximal, both among the returned sessions and among all
verified lock records of the directory; equal start_time ties are broken
by the stable descending sort, i.e. by directory enumeration order. -/
theorem C3_find_active_max (p : PidOracle) (q : ProbeOracle) (dir : SessionDir)
    (s : ZekeSessionInfo) (h : find_active_session p q dir = some s) :
    s ∈ (discover_sessions p q dir).2
    ∧ is_session_active p q s = true
    ∧ (∀ t ∈ (discover_sessions p q dir).2, t.start_time ≤ s.start_time)
    ∧ (∀ d e t, dir = some d → e ∈ d → ends_with e.name ".lock" = true →
        e.content = some t → is_session_active p q t = true →
        t.start_time ≤ s.start_time) := by
  unfold find_active_session at h
  have hsorted : (discover_sessions p q dir).2.Pairwise (newestFirst · ·) := by
    cases dir with
    | none => simp [discover_sessions]
    | some d =>
      rw [discover_snd]
      exact List.sorted_mergeSort newestFirst_trans newestFirst_total _
  obtain ⟨rest, hres⟩ : ∃ rest, (discover_sessions p q dir).2 = s :: rest := by
    cases hcase : (discover_sessions p q dir).2 with
    | nil => rw [hcase] at h; simp at h
    | cons a r =>
      rw [hcase] at h
      simp at h
      exact ⟨r, by rw [h]⟩
  have hmem : s ∈ (discover_sessions p q dir).2 := by
    rw [hres]
    exact List.mem_cons_self s rest
  have hmax : ∀ t ∈ (discover_sessions p q dir).2, t.start_time ≤ s.start_time := by
    intro t ht
    rw [hres] at ht hsorted
    rcases List.mem_cons.mp ht with h1 | h1
    · rw [h1]
    · have := (List.pairwise_cons.mp hsorted).1 t h1
      simpa [newestFirst] using this
  refine ⟨hmem, active_of_mem_discover hmem, hmax, ?_⟩
  intro d e t hdir he hlock hcontent hactive
  subst hdir
  have hcollect : collectEntry p q e = some t := by
    simp [collectEntry, hlock, hcontent, hactive]
  have htmem : t ∈ (discover_sessions p q (some d)).2 := by
    rw [discover_snd, List.mem_mergeSort]
    exact List.mem_filterMap.mpr ⟨e, he, hcollect⟩
  exact hmax t htmem

/-- Witness for C3: the amended statement at the concrete directory with
entryA first. -/
theorem C3_find_active_max_witness :
    find_active_session allPids allPorts (some [entryA, entryB]) = some sessA
    ∧ (sessA ∈ (discover_sessions allPids allPorts (some [entryA, entryB])).2
    ∧ is_session_active allPids allPorts sessA = true
    ∧ (∀ t ∈ (discover_sessions allPids allPorts (some [entryA, entryB])).2,
        t.start_time ≤ sessA.start_time)
    ∧ (∀ d e t, (some [entryA, entryB] : SessionDir) = some d → e ∈ d →
        ends_with e.name ".lock" = true → e.content = some t →
        is_session_active allPids allPorts t = true →
        t.start_time ≤ sessA.start_time)) :=
  ⟨findAB, C3_find_active_max allPids allPorts (some [entryA, entryB]) sessA findAB⟩

/-- The ids returned by a sequence of create_task calls starting at any
manager state are consecutive from its next_id. -/
theorem runCreates_ids (cmds : List String) : ∀ m : Terminal.TaskManager,
    (Terminal.runCreates m cmds).1 = List.range' m.next_id cmds.length := by
  induction cmds with
  | nil => intro m; simp [Terminal.runCreates]
  | cons c cs ih =>
    intro m
    simp [Terminal.runCreates, Terminal.create_task, ih, List.range'_succ]

/-- The task map keys after a sequence of create_task calls are the newly
assigned ids (newest first) followed by the previous keys. -/
theorem runCreates_keys (cmds : List String) : ∀ m : Terminal.TaskManager,
    (Terminal.runCreates m cmds).2.tasks.map Prod.fst =
      (List.range' m.next_id cmds.length).reverse ++ m.tasks.map Prod.fst := by
  induction cmds with
  | nil => intro m; simp [Terminal.runCreates]
  | cons c cs ih =>
    intro m
    simp [Terminal.runCreates, Terminal.create_task, ih, List.range'_succ]

/-- C9: starting from a fresh TaskManager, every create_task call returns
an identifier strictly greater than all earlier ones (the ids are exactly
1, 2, ..., n), and the task map is keyed by pairwise distinct identifiers. -/
theorem C9_create_task_ids_monotone (cmds : List String) :
    (Terminal.runCreates Terminal.TaskManager.new cmds).1 =
      List.range' 1 cmds.length
    ∧ (Terminal.runCreates Terminal.TaskManager.new cmds).1.Pairwise (· < ·)
    ∧ ((Terminal.runCreates Terminal.TaskManager.new cmds).2.tasks.map Prod.fst).Nodup := by
  have h1 := runCreates_ids cmds Terminal.TaskManager.new
  have h2 := runCreates_keys cmds Terminal.TaskManager.new
  refine ⟨h1, ?_, ?_⟩
  · rw [h1]
    exact List.pairwise_lt_range' 1 cmds.length
  · rw [h2]
    simp [Terminal.TaskManager.new]
    exact List.nodup_range' 1 cmds.length
